import Mathlib

set_option maxHeartbeats 1000000
set_option maxRecDepth 100000

/-!
Verification of the code-generation core in `hydpy/cythons/modelutils.py`.

The Python module is shallowly embedded below: every embedded definition is a
direct translation of the corresponding Python function or property.  File
modification times are modelled as integers, Python strings as Lean `String`s,
and Python exceptions as `Except PyErr`.  All string primitives are implemented
by structural (fuel-bounded) recursion so that every definition evaluates
inside the kernel.
-/

/-! ## Python string primitives

Kernel-reducible replacements for the Python `str` methods the embedded code
relies on (`split`, `replace`, `strip`, `lstrip`, `rstrip`, `count`,
`startswith`, `endswith`, `in`, `join`).
-/

/-- `isPrefixL p s` is true when the character list `p` is a prefix of `s`. -/
def isPrefixL : List Char → List Char → Bool
  | [], _ => true
  | _ :: _, [] => false
  | p :: ps, c :: cs => p == c && isPrefixL ps cs

/-- Fuel-bounded worker for `pySplit`; `sep` is assumed nonempty, and the fuel
is an upper bound on the number of remaining characters. -/
def pySplitGo (sep : List Char) : Nat → List Char → List Char → List (List Char)
  | 0, acc, rest => [acc.reverse ++ rest]
  | _ + 1, acc, [] => [acc.reverse]
  | fuel + 1, acc, c :: cs =>
      if isPrefixL sep (c :: cs) then
        acc.reverse :: pySplitGo sep fuel [] (List.drop (sep.length - 1) cs)
      else
        pySplitGo sep fuel (c :: acc) cs

/-- Python `s.split(sep)` for a nonempty separator (the embedded code never
splits on an empty separator). -/
def pySplit (s sep : String) : List String :=
  if sep.data.isEmpty then [s]
  else (pySplitGo sep.data (s.data.length + 1) [] s.data).map String.mk

/-- Fuel-bounded worker for `pyReplace`; `pat` is assumed nonempty. -/
def pyReplaceGo (pat repl : List Char) : Nat → List Char → List Char
  | 0, rest => rest
  | _ + 1, [] => []
  | fuel + 1, c :: cs =>
      if isPrefixL pat (c :: cs) then
        repl ++ pyReplaceGo pat repl fuel (List.drop (pat.length - 1) cs)
      else
        c :: pyReplaceGo pat repl fuel cs

/-- Python `s.replace(pat, repl)` for a nonempty pattern. -/
def pyReplace (s pat repl : String) : String :=
  if pat.data.isEmpty then s
  else String.mk (pyReplaceGo pat.data repl.data s.data.length s.data)

/-- Python `sub in s` (substring containment). -/
def pyContains (s sub : String) : Bool := (pySplit s sub).length > 1

/-- Python `s.count(c)` for a single character. -/
def pyCountChar (s : String) (c : Char) : Nat :=
  s.data.countP (fun x => x == c)

/-- Python `s.lstrip()`. -/
def pyLstrip (s : String) : String :=
  String.mk (s.data.dropWhile Char.isWhitespace)

/-- Python `s.rstrip()`. -/
def pyRstrip (s : String) : String :=
  String.mk (s.data.reverse.dropWhile Char.isWhitespace).reverse

/-- Python `s.strip()`. -/
def pyStrip (s : String) : String := pyRstrip (pyLstrip s)

/-- Python `s.startswith(p)`. -/
def pyStartsWith (s p : String) : Bool := isPrefixL p.data s.data

/-- Python `s.endswith(p)`. -/
def pyEndsWith (s p : String) : Bool := isPrefixL p.data.reverse s.data.reverse

/-- Python `s[:-1]` on the operator strings used below. -/
def pyDropLast (s : String) : String := String.mk (s.data.dropLast)

/-- Python `sep.join(parts)`. -/
def pyJoinWith (sep : String) : List String → String
  | [] => ""
  | h :: t => t.foldl (fun a b => a ++ sep ++ b) h

/-- Concatenation of a list of strings. -/
def concatAll (l : List String) : String := l.foldl (fun a b => a ++ b) ""

/-- The elements of a list at even positions, Python `l[::2]`. -/
def evens : List String → List String
  | [] => []
  | [a] => [a]
  | a :: _ :: t => a :: evens t

/-- Python exceptions raised by the embedded code. -/
inductive PyErr
  | typeError (msg : String)
  | notImplemented (msg : String)
  | ioError (msg : String)
  deriving DecidableEq

/-- Python `%`-formatting with string arguments: the template is cut at each
`%s` placeholder and the arguments are interleaved.  A mismatch between the
number of placeholders and the number of arguments raises `TypeError`, exactly
as in Python (the embedded templates use no other conversion specifier). -/
def pyFormat (template : String) (args : List String) : Except PyErr String :=
  let parts := pySplit template "%s"
  if parts.length = args.length + 1 then
    .ok (concatAll (List.zipWith (fun p a => p ++ a) parts args) ++ parts.getLast!)
  else if parts.length > args.length + 1 then
    .error (.typeError "not enough arguments for format string")
  else
    .error (.typeError "not all arguments converted during string formatting")

/-! ## `Lines` -/

/-- `n` spaces. -/
def spaces (n : Nat) : String := String.mk (List.replicate n ' ')

/-- `Lines.add(indent, line)`: four spaces per indentation level are prefixed
to the given line. -/
def addLine (indent : Nat) (line : String) : String := spaces (4 * indent) ++ line

/-- `Lines.__repr__`: the lines joined by newlines, with a trailing newline. -/
def linesRepr (lines : List String) : String := pyJoinWith "\n" lines ++ "\n"

/-! ## Staleness detection (`Cythonizer.outdated`)

The filesystem is abstracted to modification times: `cyfile` is the
modification time of the generated file at `cyfilepath` (`none` when the file
does not exist) and `pysourcedates` are the modification times of the
`pysourcefiles`.  The Python property returns `True` when the file is missing,
or when the loop finds one source date strictly greater than the file date. -/
def outdated (cyfile : Option Int) (pysourcedates : List Int) : Bool :=
  match cyfile with
  | none => true
  | some cydate => pysourcedates.any (fun pydate => decide (cydate < pydate))

/-! ## `FuncConverter.remove_imath_operators` -/

/-- The in-place operators, in the order the Python loop tries them. -/
def imathOperators : List String := ["+=", "-=", "**=", "*=", "//=", "/=", "%="]

/-- One substitution step of `remove_imath_operators`: split the line on the
operator; when it occurs, rebuild the line as
`indent ++ lhs ++ " = " ++ lhs ++ " " ++ op[:-1] ++ " (" ++ rhs ++ ")"`
(only the first two split parts are used, as in the source). -/
def removeImathOp (line op : String) : String :=
  match pySplit line op with
  | s0 :: s1 :: _ =>
      let indent := pyCountChar line ' ' - pyCountChar (pyLstrip line) ' '
      spaces indent ++ pyStrip s0 ++ " = " ++ pyStrip s0 ++ " " ++
        pyDropLast op ++ " (" ++ pyStrip s1 ++ ")"
  | _ => line

/-- The Python loop body updates the line variable once per operator. -/
def removeImathLine (line : String) : String :=
  imathOperators.foldl removeImathOp line

/-- `FuncConverter.remove_imath_operators`: each list entry is rewritten in
place, independently of the others. -/
def remove_imath_operators (lines : List String) : List String :=
  lines.map removeImathLine

/-! ## `FuncConverter` (function translator)

A user routine is described by its name, its source text
(`inspect.getsource`), the ordered names of the model's parameter and sequence
subgroups, and the routine's code-object variable and argument names. -/

structure FuncSrc where
  funcname : String
  source : String
  groupnames : List String
  varnames : List String
  argnames : List String
  deriving DecidableEq

/-- Python `s[:n]`. -/
def pyTake (n : Nat) (s : String) : String := String.mk (s.data.take n)

/-- `FuncConverter.collectornames`: the subgroup names whose three-letter
shortcut occurs among the routine's variable names, plus the old/new state
aliases. -/
def collectornames (f : FuncSrc) : List String :=
  (f.groupnames.filter (fun n => f.varnames.contains (pyTake 3 n))) ++
  (if f.varnames.contains "old" then ["old_states"] else []) ++
  (if f.varnames.contains "new" then ["new_states"] else [])

/-- `FuncConverter.remove_linebreaks_within_equations`: delete backslash
continuations, then walk the characters tracking bracket depth and drop every
newline encountered at nonzero depth.  Note that the walk never fails: an
unbalanced source simply keeps a nonzero counter and silently loses the
following newlines. -/
def remove_linebreaks_within_equations (code : String) : String :=
  let code := pyReplace code "\\\n" ""
  let out := code.data.foldl
    (fun (acc : List Char × Int) c =>
      let counter :=
        if c == '(' || c == '[' || c == '\x7b' then acc.2 + 1
        else if c == ')' || c == ']' || c == '\x7d' then acc.2 - 1
        else acc.2
      if counter != 0 && c == '\n' then (acc.1, counter)
      else (acc.1 ++ [c], counter))
    ([], 0)
  String.mk out.1

/-- The body of `FuncConverter.cleanlines`, which depends on the routine only
through its name, its source text and its resolved collector names.  Python
`splitlines` is rendered as splitting on newline; the two differ only in extra
empty trailing lines, which the final emptiness filter removes either way. -/
def cleanlinesCore (funcname source : String) (collnames : List String) : List String :=
  let code := pyJoinWith "\n" (evens (pySplit source "\"\"\""))
  let code := pyReplace code "modelutils." ""
  let code := collnames.foldl
    (fun c n => pyReplace c (pyTake 3 n ++ ".") ("self." ++ n ++ ".")) code
  let code := remove_linebreaks_within_equations code
  let lines := pySplit code "\n"
  let lines := remove_imath_operators lines
  let lines := match lines with
    | [] => []
    | _ :: t => ("def " ++ funcname ++ "(self):") :: t
  let lines := lines.map (fun l => (pySplit l "#").headD "")
  let lines := lines.filter (fun l => !(pyContains l "fastaccess"))
  ((lines.filter (fun l => pyRstrip l != "")).map pyRstrip)

/-- `FuncConverter.cleanlines`. -/
def cleanlines (f : FuncSrc) : List String :=
  cleanlinesCore f.funcname f.source (collectornames f)

/-- `FuncConverter.untypedvarnames`. -/
def untypedvarnames (f : FuncSrc) : List String :=
  f.varnames.filter (fun n =>
    !((collectornames f).map (pyTake 3)).contains n && n != "self")

/-- `FuncConverter.untypedarguments`. -/
def untypedarguments (f : FuncSrc) : List String :=
  let defline := (cleanlines f).headD ""
  (untypedvarnames f).filter (fun n =>
    pyContains defline (", " ++ n ++ ",") || pyContains defline (", " ++ n ++ ")"))

/-- `FuncConverter.untypedinternalvarnames`. -/
def untypedinternalvarnames (f : FuncSrc) : List String :=
  (untypedvarnames f).filter (fun n => !(untypedarguments f).contains n)

/-- The module-level `_nogil` string (set from `pub.options.fastcython`). -/
def nogilStr (fast : Bool) : String := if fast then " nogil" else ""

/-- `FuncConverter.pyxlines`: indent everything one level, turn the signature
into an inlined void `cpdef`, type the untyped arguments as `int` and declare
the untyped locals as `int`. -/
def pyxlines (fast : Bool) (f : FuncSrc) : List String :=
  let lines := (cleanlines f).map (fun l => "    " ++ l)
  let lines := match lines with
    | [] => []
    | l0 :: t =>
        let l0 := pyReplace l0 "def " "cpdef inline void "
        let l0 := pyReplace l0 "):" (") " ++ nogilStr fast ++ ":")
        let l0 := (untypedarguments f).foldl (fun l n =>
          pyReplace (pyReplace l (", " ++ n ++ " ") (", int " ++ n ++ " "))
            (", " ++ n ++ ")") (", int " ++ n ++ ")")) l0
        l0 :: t
  if (untypedinternalvarnames f).isEmpty then lines
  else match lines with
    | [] => lines
    | l0 :: t =>
        l0 :: ("        cdef int " ++ pyJoinWith ", " (untypedinternalvarnames f)) :: t

/-! ## Theorems for claims C1 and C3 -/

/-- Claim C1: the staleness query reports Stale when the generated target file
does not exist; when it exists with modification time `t`, it reports Stale as
soon as one transitive source file has modification time `t + 1`, and Fresh
when every source file has modification time at most `t - 1`. -/
theorem C1_staleness (t : Int) (srcs : List Int) :
    outdated none srcs = true ∧
    ((t + 1) ∈ srcs → outdated (some t) srcs = true) ∧
    ((∀ p ∈ srcs, p ≤ t - 1) → outdated (some t) srcs = false) := by
  refine ⟨rfl, ?_, ?_⟩
  · intro hmem
    simp only [outdated, List.any_eq_true, decide_eq_true_eq]
    exact ⟨t + 1, hmem, by omega⟩
  · intro hall
    simp only [outdated, List.any_eq_true, decide_eq_true_eq, not_exists,
      eq_self_iff_true, Bool.not_eq_true] at *
    rw [Bool.eq_false_iff]
    intro hcontra
    rw [List.any_eq_true] at hcontra
    obtain ⟨p, hp, hlt⟩ := hcontra
    have := hall p hp
    simp only [decide_eq_true_eq] at hlt
    omega

/-- Witness for C1 at concrete modification times. -/
theorem C1_staleness_witness :
    outdated none [0] = true ∧
    outdated (some 10) [5, 11] = true ∧
    outdated (some 10) [9, 8] = false :=
  ⟨(C1_staleness 10 [0]).1,
   (C1_staleness 10 [5, 11]).2.1 (by decide),
   (C1_staleness 10 [9, 8]).2.2 (by decide)⟩

/-- Claim C3: the function translator rewrites every compound arithmetic
assignment into the explicit `x = x <op> (rhs)` form; in particular the line
`x += a*b` becomes `x = x + (a*b)` with no remaining `+=`, and each of the
seven operators is rewritten accordingly. -/
theorem C3_imath_rewrite :
    pyContains (removeImathLine "    x += a*b") "x = x + (a*b)" = true ∧
    pyContains (removeImathLine "    x += a*b") "+=" = false ∧
    remove_imath_operators ["    x += a*b"] = ["    x = x + (a*b)"] ∧
    removeImathLine "    x -= a*b" = "    x = x - (a*b)" ∧
    removeImathLine "    x *= a*b" = "    x = x * (a*b)" ∧
    removeImathLine "    x /= a*b" = "    x = x / (a*b)" ∧
    removeImathLine "    x //= a*b" = "    x = x // (a*b)" ∧
    removeImathLine "    x %= a*b" = "    x = x % (a*b)" ∧
    removeImathLine "    x **= a*b" = "    x = x ** (a*b)" := by
  decide

/-- Claim C4 counterexample: translating a routine whose shorthand `abc` has
no matching declared group does not fail; `cleanlines` silently produces
output in which the unresolved shorthand survives verbatim.  Likewise,
`remove_linebreaks_within_equations` handles unbalanced brackets by silently
dropping the following newline instead of reporting an error. -/
theorem C4_counterexample :
    cleanlines ⟨"calc", "def calc(self):\n    abc.x = 1.0",
        ["fluxes"], ["self"], ["self"]⟩ =
      ["def calc(self):", "    abc.x = 1.0"] ∧
    pyContains ((cleanlines ⟨"calc", "def calc(self):\n    abc.x = 1.0",
        ["fluxes"], ["self"], ["self"]⟩).getD 1 "") "abc." = true ∧
    remove_linebreaks_within_equations "x = (a\ny = b" = "x = (ay = b" := by
  decide

/-- Claim C4 (amended): when a routine references a shorthand with no matching
declared group, translation does not fail fast; the cleaned lines are produced
normally and the unresolved shorthand reference is left unchanged in them. -/
theorem C4_amended (f : FuncSrc)
    (h1 : ∀ n ∈ f.groupnames, f.varnames.contains (pyTake 3 n) = false)
    (h2 : f.varnames.contains "old" = false)
    (h3 : f.varnames.contains "new" = false)
    (h4 : f.funcname = "calc")
    (h5 : f.source = "def calc(self):\n    abc.x = 1.0") :
    cleanlines f = ["def calc(self):", "    abc.x = 1.0"] := by
  have hc : collectornames f = [] := by
    simp only [collectornames, h2, h3, if_false, List.append_nil,
      Bool.false_eq_true]
    rw [List.filter_eq_nil_iff]
    intro n hn
    simpa using h1 n hn
  rw [cleanlines, h4, h5, hc]
  decide

/-- Witness for the amended claim C4 at a concrete routine. -/
theorem C4_amended_witness :
    cleanlines ⟨"calc", "def calc(self):\n    abc.x = 1.0",
        ["states"], ["self"], ["self"]⟩ =
      ["def calc(self):", "    abc.x = 1.0"] :=
  C4_amended _ (by decide) (by decide) (by decide) rfl rfl

/-! ## Sequence descriptors and link code generation (`PyxWriter.setpointer`) -/

/-- One sequence field: its name, dimensionality (`NDIM`) and `NUMERIC`
flag. -/
structure SeqDesc where
  name : String
  ndim : Nat
  numeric : Bool
  deriving DecidableEq

/-- `PyxWriter.setpointer0d`. -/
def setpointer0d (subseqs : List SeqDesc) : List String :=
  addLine 1 "cpdef inline setpointer0d(self, str name, pointerutils.PDouble value):" ::
  subseqs.flatMap (fun s =>
    [addLine 2 ("if name == \"" ++ s.name ++ "\":"),
     addLine 3 ("self." ++ s.name ++ " = value.p_value")])

/-- `PyxWriter.alloc`: for every field of the group it emits a branch that
records the caller-supplied length and reserves a block of pointer slots. -/
def alloc (subseqs : List SeqDesc) : List String :=
  addLine 1 "cpdef inline alloc(self, name, int length):" ::
  subseqs.flatMap (fun s =>
    [addLine 2 ("if name == \"" ++ s.name ++ "\":"),
     addLine 3 ("self._" ++ s.name ++ "_length_0 = length"),
     addLine 3 ("self." ++ s.name ++ " = <double**> PyMem_Malloc(length * sizeof(double*))")])

/-- `PyxWriter.dealloc`: one `PyMem_Free` per field of the group; no line
clears the freed pointer afterwards. -/
def dealloc (subseqs : List SeqDesc) : List String :=
  addLine 1 "cpdef inline dealloc(self):" ::
  subseqs.map (fun s => addLine 2 ("PyMem_Free(self." ++ s.name ++ ")"))

/-- `PyxWriter.setpointer1d`. -/
def setpointer1d (subseqs : List SeqDesc) : List String :=
  addLine 1
    "cpdef inline setpointer1d(self, str name, pointerutils.PDouble value, int idx):" ::
  subseqs.flatMap (fun s =>
    [addLine 2 ("if name == \"" ++ s.name ++ "\":"),
     addLine 3 ("self." ++ s.name ++ "[idx] = value.p_value")])

/-- `PyxWriter.setpointer`: both Python loops execute an unconditional `break`
at the end of their first iteration, so only the FIRST field of the group is
inspected: the 0-dimensional routine is emitted when the first field is
0-dimensional and the allocate/deallocate/set-at-index routines when the first
field is 1-dimensional. -/
def setpointer (subseqs : List SeqDesc) : List String :=
  (match subseqs.head? with
   | some s => if s.ndim = 0 then setpointer0d subseqs else []
   | none => []) ++
  (match subseqs.head? with
   | some s =>
       if s.ndim = 1 then alloc subseqs ++ dealloc subseqs ++ setpointer1d subseqs
       else []
   | none => [])

/-! ## Heap semantics of the emitted alloc/dealloc routines (claim C8)

The heap is the list of live block identifiers plus a flag recording whether a
free was ever invoked on a pointer that was not currently allocated — in C
such a call (for example a double free) is undefined behaviour. -/

/-- The state the generated code keeps for one 1-dimensional link field: the
stored block pointer (`self.x`, null-initialised by Cython) and the recorded
length (`self._x_length_0`). -/
structure LinkFieldState where
  ptr : Option Nat
  len0 : Int
  deriving DecidableEq

structure Heap where
  live : List Nat
  nextId : Nat
  invalidFree : Bool
  deriving DecidableEq

/-- C semantics of `PyMem_Malloc`: return a fresh live block. -/
def mallocSem (h : Heap) : Heap × Nat :=
  (⟨h.nextId :: h.live, h.nextId + 1, h.invalidFree⟩, h.nextId)

/-- C semantics of `PyMem_Free`: freeing a null pointer is a no-op, freeing a
live block releases it, and freeing anything else (a dangling pointer — a
double free) is undefined behaviour, recorded in `invalidFree`. -/
def freeSem (h : Heap) (p : Option Nat) : Heap :=
  match p with
  | none => h
  | some b =>
      if h.live.contains b then ⟨h.live.eraseP (fun x => x == b), h.nextId, h.invalidFree⟩
      else ⟨h.live, h.nextId, true⟩

/-- Effect of the emitted `alloc` branch for one 1-dimensional link field:
`self._x_length_0 = length` followed by `self.x = PyMem_Malloc(...)`. -/
def allocSem (h : Heap) (_st : LinkFieldState) (length : Int) : Heap × LinkFieldState :=
  ((mallocSem h).1, ⟨some (mallocSem h).2, length⟩)

/-- Effect of the emitted `dealloc` routine on one field: exactly
`PyMem_Free(self.x)` — the stored pointer is left unchanged (dangling). -/
def deallocSem (h : Heap) (st : LinkFieldState) : Heap × LinkFieldState :=
  (freeSem h st.ptr, st)

/-! ## Theorems for claims C7 and C8 -/

/-- Claim C7 counterexample: in a link group whose first field is
0-dimensional and whose second field `w` is 1-dimensional, `setpointer` emits
only the 0-dimensional routine — no allocate, deallocate or set-at-index lines
for `w` appear anywhere, so the emission is NOT independent of the position of
the 1-dimensional field within the group. -/
theorem C7_counterexample :
    setpointer [⟨"q", 0, false⟩, ⟨"w", 1, false⟩] =
      setpointer0d [⟨"q", 0, false⟩, ⟨"w", 1, false⟩] ∧
    (setpointer [⟨"q", 0, false⟩, ⟨"w", 1, false⟩]).contains
      (addLine 3 "self._w_length_0 = length") = false ∧
    (setpointer [⟨"q", 0, false⟩, ⟨"w", 1, false⟩]).contains
      (addLine 2 "PyMem_Free(self.w)") = false ∧
    (setpointer [⟨"q", 0, false⟩, ⟨"w", 1, false⟩]).contains
      (addLine 3 "self.w[idx] = value.p_value") = false := by
  decide

/-- Claim C7 (amended): the choice of emitted routines is made from the
group's FIRST field only.  When that first field is 1-dimensional, the group
gets the allocate routine (recording the caller-supplied length and reserving
a block of pointer slots), the deallocate routine and the set-pointer-at-index
routine, each with a branch for every field of the group. -/
theorem C7_amended (g : List SeqDesc) (s0 s : SeqDesc)
    (h0 : g.head? = some s0) (h1 : s0.ndim = 1) (hs : s ∈ g) :
    setpointer g = alloc g ++ dealloc g ++ setpointer1d g ∧
    addLine 3 ("self._" ++ s.name ++ "_length_0 = length") ∈ setpointer g ∧
    addLine 3 ("self." ++ s.name ++ " = <double**> PyMem_Malloc(length * sizeof(double*))")
      ∈ setpointer g ∧
    addLine 2 ("PyMem_Free(self." ++ s.name ++ ")") ∈ setpointer g ∧
    addLine 3 ("self." ++ s.name ++ "[idx] = value.p_value") ∈ setpointer g := by
  have hsp : setpointer g = alloc g ++ dealloc g ++ setpointer1d g := by
    simp [setpointer, h0, h1]
  have hlen : addLine 3 ("self._" ++ s.name ++ "_length_0 = length") ∈ alloc g :=
    List.mem_cons_of_mem _ (List.mem_flatMap.2 ⟨s, hs, by simp⟩)
  have hmal :
      addLine 3 ("self." ++ s.name ++ " = <double**> PyMem_Malloc(length * sizeof(double*))")
        ∈ alloc g :=
    List.mem_cons_of_mem _ (List.mem_flatMap.2 ⟨s, hs, by simp⟩)
  have hfree : addLine 2 ("PyMem_Free(self." ++ s.name ++ ")") ∈ dealloc g :=
    List.mem_cons_of_mem _ (List.mem_map.2 ⟨s, hs, rfl⟩)
  have hset : addLine 3 ("self." ++ s.name ++ "[idx] = value.p_value") ∈ setpointer1d g :=
    List.mem_cons_of_mem _ (List.mem_flatMap.2 ⟨s, hs, by simp⟩)
  refine ⟨hsp, ?_, ?_, ?_, ?_⟩ <;> rw [hsp] <;> simp only [List.mem_append] <;> tauto

/-- Witness for the amended claim C7 at a concrete group. -/
theorem C7_amended_witness :
    setpointer [⟨"w", 1, false⟩] =
      alloc [⟨"w", 1, false⟩] ++ dealloc [⟨"w", 1, false⟩] ++ setpointer1d [⟨"w", 1, false⟩] ∧
    addLine 3 "self._w_length_0 = length" ∈ setpointer [⟨"w", 1, false⟩] ∧
    addLine 3 "self.w = <double**> PyMem_Malloc(length * sizeof(double*))"
      ∈ setpointer [⟨"w", 1, false⟩] ∧
    addLine 2 "PyMem_Free(self.w)" ∈ setpointer [⟨"w", 1, false⟩] ∧
    addLine 3 "self.w[idx] = value.p_value" ∈ setpointer [⟨"w", 1, false⟩] :=
  C7_amended [⟨"w", 1, false⟩] ⟨"w", 1, false⟩ ⟨"w", 1, false⟩ rfl rfl (by decide)

/-- Claim C8 counterexample: allocate a 1-dimensional link field with length 3
and deallocate.  The block is released (`live = []`) yet the field still holds
the reference to it (`ptr = some 0` — a dangling, reachable owned-block
reference), because the emitted `dealloc` contains only `PyMem_Free(self.w)`
and no line assigning to `self.w`; a second `dealloc` then frees the same
pointer again — a double free, undefined behaviour. -/
theorem C8_counterexample :
    (deallocSem (allocSem ⟨[], 0, false⟩ ⟨none, 0⟩ 3).1
        (allocSem ⟨[], 0, false⟩ ⟨none, 0⟩ 3).2).2.ptr = some 0 ∧
    (deallocSem (allocSem ⟨[], 0, false⟩ ⟨none, 0⟩ 3).1
        (allocSem ⟨[], 0, false⟩ ⟨none, 0⟩ 3).2).1.live = [] ∧
    (deallocSem
        (deallocSem (allocSem ⟨[], 0, false⟩ ⟨none, 0⟩ 3).1
          (allocSem ⟨[], 0, false⟩ ⟨none, 0⟩ 3).2).1
        (deallocSem (allocSem ⟨[], 0, false⟩ ⟨none, 0⟩ 3).1
          (allocSem ⟨[], 0, false⟩ ⟨none, 0⟩ 3).2).2).1.invalidFree = true ∧
    (dealloc [⟨"w", 1, false⟩]).contains (addLine 2 "PyMem_Free(self.w)") = true ∧
    (dealloc [⟨"w", 1, false⟩]).all (fun l => !(pyContains l "self.w =")) = true := by
  decide

/-- Claim C8 (amended): for any allocation length, allocate-then-deallocate
releases the block but leaves the field holding the dangling reference (the
emitted routine never clears it), and a second deallocate frees the same
pointer again — a double free. -/
theorem C8_amended (n : Int) :
    (allocSem ⟨[], 0, false⟩ ⟨none, 0⟩ n).2.len0 = n ∧
    (deallocSem (allocSem ⟨[], 0, false⟩ ⟨none, 0⟩ n).1
        (allocSem ⟨[], 0, false⟩ ⟨none, 0⟩ n).2).2.ptr = some 0 ∧
    (deallocSem (allocSem ⟨[], 0, false⟩ ⟨none, 0⟩ n).1
        (allocSem ⟨[], 0, false⟩ ⟨none, 0⟩ n).2).1.live = [] ∧
    (deallocSem
        (deallocSem (allocSem ⟨[], 0, false⟩ ⟨none, 0⟩ n).1
          (allocSem ⟨[], 0, false⟩ ⟨none, 0⟩ n).2).1
        (deallocSem (allocSem ⟨[], 0, false⟩ ⟨none, 0⟩ n).1
          (allocSem ⟨[], 0, false⟩ ⟨none, 0⟩ n).2).2).1.invalidFree = true :=
  ⟨rfl, rfl, rfl, rfl⟩

/-! ## The top-level per-step procedure (`PyxWriter.doit`, claim C5) -/

/-- The structural facts about the model that `PyxWriter.doit` consults:
whether the sequences own an `inputs`, `states` or `fluxes` subgroup, whether
`_INLET_METHODS` / `_OUTLET_METHODS` are nonempty, and whether the model
defines a `solve` method (numeric scaffolding present). -/
structure DoitFlags where
  hasInputs : Bool
  hasInlets : Bool
  hasSolve : Bool
  hasStates : Bool
  hasOutlets : Bool
  hasFluxes : Bool
  deriving DecidableEq

/-- `PyxWriter.doit`: the generated per-step procedure, with each stage
included or omitted at generation time exactly as in the source. -/
def doitLines (fast : Bool) (fl : DoitFlags) : List String :=
  [addLine 1 ("cpdef inline void doit(self, int idx) " ++ nogilStr fast ++ ":"),
   addLine 2 "self.idx_sim = idx"] ++
  (if fl.hasInputs then [addLine 2 "self.loaddata()"] else []) ++
  (if fl.hasInlets then [addLine 2 "self.update_inlets()"] else []) ++
  (if fl.hasSolve then [addLine 2 "self.solve()"]
   else [addLine 2 "self.run()"] ++
     (if fl.hasStates then [addLine 2 "self.new2old()"] else [])) ++
  (if fl.hasOutlets then [addLine 2 "self.update_outlets()"] else []) ++
  (if fl.hasFluxes || fl.hasStates then [addLine 2 "self.savedata()"] else [])

/-- The stages of the per-step procedure named by the specification. -/
inductive Stage
  | load | inlets | solve | run | new2old | outlets | save
  deriving DecidableEq

/-- Map a generated line back to the stage it performs (`none` for the header
and the simulation-index assignment). -/
def stageOfLine (l : String) : Option Stage :=
  if l = addLine 2 "self.loaddata()" then some .load
  else if l = addLine 2 "self.update_inlets()" then some .inlets
  else if l = addLine 2 "self.solve()" then some .solve
  else if l = addLine 2 "self.run()" then some .run
  else if l = addLine 2 "self.new2old()" then some .new2old
  else if l = addLine 2 "self.update_outlets()" then some .outlets
  else if l = addLine 2 "self.savedata()" then some .save
  else none

/-- The inclusion condition for each stage, as the claim states it. -/
def stageEnabled (fl : DoitFlags) : Stage → Bool
  | .load => fl.hasInputs
  | .inlets => fl.hasInlets
  | .solve => fl.hasSolve
  | .run => !fl.hasSolve
  | .new2old => !fl.hasSolve && fl.hasStates
  | .outlets => fl.hasOutlets
  | .save => fl.hasFluxes || fl.hasStates

/-- Claim C5: for every combination of declared categories, the stages
occurring in the generated per-step procedure are exactly the enabled ones, in
the fixed order load → inlets → (solve | run, new2old) → outlets → save;
a disabled stage appears nowhere in the procedure. -/
theorem C5_doit_stages (fast : Bool) (fl : DoitFlags) :
    (doitLines fast fl).filterMap stageOfLine =
      [Stage.load, Stage.inlets, Stage.solve, Stage.run, Stage.new2old,
       Stage.outlets, Stage.save].filter (stageEnabled fl) := by
  obtain ⟨a, b, c, d, e, f⟩ := fl
  cases fast <;> cases a <;> cases b <;> cases c <;> cases d <;> cases e <;>
    cases f <;> decide

/-! ## Semantics of the emitted error computation (claim C6) -/

/-- One numeric flux field as seen by the emitted error routine: its flattened
element count (the product of its per-axis lengths) and its result buffer,
`res k i` being the entry for method order `k` and element `i`.  The
double-precision values involved in the claim are exactly representable, so
real arithmetic is modelled in `ℚ`. -/
structure NumFluxData where
  len : Nat
  res : Nat → Nat → ℚ

/-- Denotational semantics of the routine emitted by
`PyxWriter.calculate_error`: set `self.numvars.error = 0.`, then for every
numeric flux field loop over all its elements updating
`error = max(error, abs(results[idx_method, …] - results[idx_method - 1, …]))`. -/
def calculate_error_sem (k : Nat) (fields : List NumFluxData) : ℚ :=
  fields.foldl
    (fun err f =>
      (List.range f.len).foldl (fun e i => max e |f.res k i - f.res (k - 1) i|) err)
    0

/-- The absolute differences contributed by one field. -/
def fieldDiffs (k : Nat) (f : NumFluxData) : List ℚ :=
  (List.range f.len).map (fun i => |f.res k i - f.res (k - 1) i|)

theorem foldl_max_init (l : List ℚ) (a b : ℚ) :
    l.foldl max (max a b) = max a (l.foldl max b) := by
  induction l generalizing b with
  | nil => rfl
  | cons c t ih => rw [List.foldl_cons, max_assoc, ih, List.foldl_cons]

theorem calc_error_go (k : Nat) (fields : List NumFluxData) (init : ℚ) :
    fields.foldl
      (fun err f =>
        (List.range f.len).foldl (fun e i => max e |f.res k i - f.res (k - 1) i|) err)
      init = (fields.flatMap (fieldDiffs k)).foldl max init := by
  induction fields generalizing init with
  | nil => rfl
  | cons f t ih =>
    rw [List.foldl_cons, List.flatMap_cons, List.foldl_append, ih]
    congr 1
    rw [fieldDiffs, List.foldl_map]

/-- Claim C6: the emitted error routine computes the maximum (starting from 0)
of the absolute differences between the result-buffer entries for method order
`k` and `k - 1`, across all elements of all numeric flux fields; in
particular, for a single scalar flux with `r_k = 5` and `r_(k-1) = 3` it
computes `error = 2`. -/
theorem C6_calculate_error :
    (∀ (k : Nat) (fields : List NumFluxData),
      calculate_error_sem k fields = (fields.flatMap (fieldDiffs k)).foldl max 0) ∧
    calculate_error_sem 1 [⟨1, fun k _ => if k = 1 then 5 else 3⟩] = 2 := by
  constructor
  · intro k fields
    exact calc_error_go k fields 0
  · have hr : List.range 1 = [0] := rfl
    simp [calculate_error_sem, hr]
    norm_num

/-! ## Numeric scaffolding emitters, per field (claims C10 and C2)

Each of the following functions embeds the body of the corresponding Python
loop for one sequence field.  Dimensionalities 0–2 produce the emitted lines;
dimensionality 3 or higher raises `NotImplementedError` exactly as in the
source.  In `_assign_seqvalues` the 2-dimensional branch formats a template
with one placeholder using two arguments, which raises `TypeError` in Python;
that formatting is embedded through `pyFormat` to stay faithful. -/

/-- `PyxWriter._assign_seqvalues`, loop body for one field. -/
def assignSeqvaluesField (subseqsName target : String) (index : Option String)
    (load : Bool) (s : SeqDesc) : Except PyErr (List String) :=
  let plain := "self." ++ subseqsName ++ "." ++ s.name
  let buffer := "self." ++ subseqsName ++ "._" ++ s.name ++ "_" ++ target ++
    (match index with
     | some i => "[self.numvars." ++ i ++ "]"
     | none => "")
  let to2 := if load then plain else buffer
  let from2 := if load then buffer else plain
  match s.ndim with
  | 0 => .ok [to2 ++ " = " ++ from2]
  | 1 => .ok ["cdef int idx0",
      "for idx0 in range(self." ++ subseqsName ++ "._" ++ s.name ++ "_length0):",
      "    " ++ to2 ++ "[idx0] = " ++ from2 ++ "[idx0]"]
  | 2 =>
      match pyFormat "    for idx1 in range(self._%s_length1):" [subseqsName, s.name] with
      | .ok l => .ok ["cdef int idx0, idx1",
          "for idx0 in range(self." ++ subseqsName ++ "._" ++ s.name ++ "_length0):",
          l,
          "        " ++ to2 ++ "[idx0, idx1] = " ++ from2 ++ "[idx0, idx1]"]
      | .error e => .error e
  | _ => .error (.notImplemented
      ("NDIM of sequence `" ++ s.name ++ "` is higher than expected"))

/-- The coefficient expression shared by the `integrate_fluxes` lines. -/
def integrateFluxesCoefs : String :=
  "self.numvars.dt * self.numconsts.a_coefs[self.numvars.idx_method-1,self.numvars.idx_stage,jdx]"

/-- `PyxWriter.integrate_fluxes`, loop body for one numeric flux field. -/
def integrateFluxesField (s : SeqDesc) : Except PyErr (List String) :=
  let to_ := "self.fluxes." ++ s.name
  let from_ := "self.fluxes._" ++ s.name ++ "_points"
  match s.ndim with
  | 0 => .ok ["cdef int jdx",
      to_ ++ " = 0.",
      "for jdx in range(self.numvars.idx_method):",
      "    " ++ to_ ++ " = " ++ to_ ++ " +" ++ integrateFluxesCoefs ++ "*" ++
        from_ ++ "[jdx]"]
  | 1 => .ok ["cdef int jdx, idx0",
      "for idx0 in range(self.fluxes._" ++ s.name ++ "_length0):",
      "    " ++ to_ ++ "[idx0] = 0.",
      "    for jdx in range(self.numvars.idx_method):",
      "        " ++ to_ ++ "[idx0] = " ++ to_ ++ "[idx0] + " ++
        integrateFluxesCoefs ++ "*" ++ from_ ++ "[jdx, idx0]"]
  | 2 => .ok ["cdef int jdx, idx0, idx1",
      "for idx0 in range(self.fluxes._" ++ s.name ++ "_length0):",
      "    for idx1 in range(self.fluxes._" ++ s.name ++ "_length1):",
      "        " ++ to_ ++ "[idx0, idx1] = 0.",
      "        for jdx in range(self.numvars.idx_method):",
      "            " ++ to_ ++ "[idx0, idx1] = " ++ to_ ++ "[idx0, idx1] + " ++
        integrateFluxesCoefs ++ "*" ++ from_ ++ "[jdx, idx0, idx1]"]
  | _ => .error (.notImplemented
      ("NDIM of sequence `" ++ s.name ++ "` is higher than expected"))

/-- `PyxWriter.reset_sum_fluxes`, loop body for one numeric flux field. -/
def resetSumFluxesField (s : SeqDesc) : Except PyErr (List String) :=
  let to_ := "self.fluxes._" ++ s.name ++ "_sum"
  match s.ndim with
  | 0 => .ok [to_ ++ " = 0."]
  | 1 => .ok ["cdef int idx0",
      "for idx0 in range(self.fluxes._" ++ s.name ++ "_length0):",
      "    " ++ to_ ++ "[idx0] = 0."]
  | 2 => .ok ["cdef int idx0, idx1",
      "for idx0 in range(self.fluxes._" ++ s.name ++ "_length0):",
      "    for idx1 in range(self.fluxes._" ++ s.name ++ "_length1):",
      "        " ++ to_ ++ "[idx0, idx1] = 0."]
  | _ => .error (.notImplemented
      ("NDIM of sequence `" ++ s.name ++ "` is higher than expected"))

/-- `PyxWriter.addup_fluxes`, loop body for one numeric flux field. -/
def addupFluxesField (s : SeqDesc) : Except PyErr (List String) :=
  let to_ := "self.fluxes._" ++ s.name ++ "_sum"
  let from_ := "self.fluxes." ++ s.name
  match s.ndim with
  | 0 => .ok [to_ ++ " = " ++ to_ ++ " + " ++ from_]
  | 1 => .ok ["cdef int idx0",
      "for idx0 in range(self.fluxes._" ++ s.name ++ "_length0):",
      "    " ++ to_ ++ "[idx0] = " ++ to_ ++ "[idx0] + " ++ from_ ++ "[idx0]"]
  | 2 => .ok ["cdef int idx0, idx1",
      "for idx0 in range(self.fluxes._" ++ s.name ++ "_length0):",
      "    for idx1 in range(self.fluxes._" ++ s.name ++ "_length1):",
      "        " ++ to_ ++ "[idx0, idx1] = " ++ to_ ++ "[idx0, idx1] + " ++
        from_ ++ "[idx0, idx1]"]
  | _ => .error (.notImplemented
      ("NDIM of sequence `" ++ s.name ++ "` is higher than expected"))

/-- `PyxWriter.calculate_error`, loop body for one numeric flux field (the
routine first yields `self.numvars.error = 0.`). -/
def calculateErrorField (s : SeqDesc) : Except PyErr (List String) :=
  let to_ := "self.numvars.error"
  let index := "self.numvars.idx_method"
  let from_ := "self.fluxes._" ++ s.name ++ "_results"
  match s.ndim with
  | 0 => .ok [to_ ++ " = max(" ++ to_ ++ ", fabs(" ++ from_ ++ "[" ++ index ++
      "]-" ++ from_ ++ "[" ++ index ++ "-1]))"]
  | 1 => .ok ["cdef int idx0",
      "for idx0 in range(self.fluxes._" ++ s.name ++ "_length0):",
      "    " ++ to_ ++ " = max(" ++ to_ ++ ", abs(" ++ from_ ++ "[" ++ index ++
        ", idx0]-" ++ from_ ++ "[" ++ index ++ "-1, idx0]))"]
  | 2 => .ok ["cdef int idx0, idx1",
      "for idx0 in range(self.fluxes._" ++ s.name ++ "_length0):",
      "    for idx1 in range(self.fluxes._" ++ s.name ++ "_length1):",
      "        " ++ to_ ++ " = max(" ++ to_ ++ ", abs(" ++ from_ ++ "[" ++ index ++
        ", idx0, idx1]-" ++ from_ ++ "[" ++ index ++ "-1, idx0, idx1]))"]
  | _ => .error (.notImplemented
      ("NDIM of sequence `" ++ s.name ++ "` is higher than expected"))

/-- Claim C10: every numeric-scaffolding emitter — stage/result capture
(`_assign_seqvalues`), flux integration, sum reset, sum accumulation and error
computation — raises `NotImplementedError` while generating code for a field
of dimensionality three or higher. -/
theorem C10_ndim3_not_implemented (subseqsName target : String)
    (index : Option String) (load : Bool) (name : String) (numeric : Bool)
    (n : Nat) (h : 3 ≤ n) :
    assignSeqvaluesField subseqsName target index load ⟨name, n, numeric⟩ =
      .error (.notImplemented
        ("NDIM of sequence `" ++ name ++ "` is higher than expected")) ∧
    integrateFluxesField ⟨name, n, numeric⟩ =
      .error (.notImplemented
        ("NDIM of sequence `" ++ name ++ "` is higher than expected")) ∧
    resetSumFluxesField ⟨name, n, numeric⟩ =
      .error (.notImplemented
        ("NDIM of sequence `" ++ name ++ "` is higher than expected")) ∧
    addupFluxesField ⟨name, n, numeric⟩ =
      .error (.notImplemented
        ("NDIM of sequence `" ++ name ++ "` is higher than expected")) ∧
    calculateErrorField ⟨name, n, numeric⟩ =
      .error (.notImplemented
        ("NDIM of sequence `" ++ name ++ "` is higher than expected")) := by
  obtain ⟨m, rfl⟩ : ∃ m, n = m + 3 := ⟨n - 3, by omega⟩
  exact ⟨rfl, rfl, rfl, rfl, rfl⟩

/-- Witness for C10 at a concrete 3-dimensional field. -/
theorem C10_ndim3_not_implemented_witness :
    assignSeqvaluesField "states" "points" (some "idx_stage") true ⟨"q", 3, true⟩ =
      .error (.notImplemented "NDIM of sequence `q` is higher than expected") ∧
    integrateFluxesField ⟨"q", 3, true⟩ =
      .error (.notImplemented "NDIM of sequence `q` is higher than expected") ∧
    resetSumFluxesField ⟨"q", 3, true⟩ =
      .error (.notImplemented "NDIM of sequence `q` is higher than expected") ∧
    addupFluxesField ⟨"q", 3, true⟩ =
      .error (.notImplemented "NDIM of sequence `q` is higher than expected") ∧
    calculateErrorField ⟨"q", 3, true⟩ =
      .error (.notImplemented "NDIM of sequence `q` is higher than expected") :=
  C10_ndim3_not_implemented "states" "points" (some "idx_stage") true "q" true 3
    (by decide)

/-! ## Artifact relocation (`Cythonizer.movedll`, claim C9) -/

/-- One entry of the `os.walk` output: a directory path and the plain files it
contains (subdirectory names are irrelevant to the search). -/
structure DirInfo where
  dirpath : String
  filenames : List String
  deriving DecidableEq

/-- The inner loop of `Cythonizer.movedll`: the first file of a directory
whose name starts with the module name and ends with the dll extension. -/
def findDllInDir (cyname ext : String) (d : DirInfo) : Option String :=
  d.filenames.find? (fun f => pyStartsWith f cyname && pyEndsWith f ext)

/-- The outer loop of `Cythonizer.movedll` over the walked directories. -/
def findDll (cyname ext : String) : List DirInfo → Option (String × String)
  | [] => none
  | d :: rest =>
      match findDllInDir cyname ext d with
      | some f => some (d.dirpath, f)
      | none => findDll cyname ext rest

/-- The message template of the `IOError` raised when no artifact is found:
it holds three `%s` placeholders (module, file, directory). -/
def movedllTemplate : String :=
  "After trying to cythonize module %s, the resulting file %s could neither be found in directory %s nor its subdirectories.  The distul report should tell whether the file has been stored somewhere else,is named somehow else, or could not be build at all."

/-- `Cythonizer.movedll`: `next(dirinfos)` discards the first walk entry (the
build root itself) before the search; on success the artifact is moved to
`<cydirpath>/<cyname><ext>` (a successful move is assumed here — the blocked
destination case is outside claim C9).  When nothing is found, the source
executes `raise IOError(template % self.buildpath)`; the template has three
placeholders but receives a single argument, so evaluating the message itself
raises `TypeError`. -/
def movedll (tree : List DirInfo) (cyname ext buildpath cydirpath : String) :
    Except PyErr String :=
  match findDll cyname ext (tree.drop 1) with
  | some _ => .ok (cydirpath ++ "/" ++ cyname ++ ext)
  | none =>
      match pyFormat movedllTemplate [buildpath] with
      | .ok msg => .error (.ioError msg)
      | .error e => .error e

/-- Claim C9 (code bug): when no file with the expected prefix and extension
exists anywhere in the build tree, the driver does not produce the intended
`IOError` naming the search root: formatting its three-placeholder message
with the single argument `self.buildpath` raises
`TypeError: not enough arguments for format string` first. -/
theorem C9_artifact_missing_typeerror :
    movedll [⟨"_build", []⟩, ⟨"_build/lib.linux", ["other.txt", "c_hland.c"]⟩]
        "c_hland" ".so" "_build" "autogen" =
      .error (.typeError "not enough arguments for format string") ∧
    (pySplit movedllTemplate "%s").length = 3 + 1 :=
  ⟨rfl, rfl⟩

/-! ## The full generated source unit (`PyxWriter.write`, claim C2)

The model descriptor gathers everything `PyxWriter` reads from the live model
object: parameter and sequence subgroups, module-level constants, the
`NUMERICAL` flag, which methods exist on the model (`hasattr` checks), the
method lists, and the sources of the `solve`/`extrapolate_error` routines and
of the user routines.  Python 3.7+ dictionaries iterate in insertion order, so
the descriptor lists are ordered. -/

/-- Python element kinds appearing in `TYPE2STR`. -/
inductive ElemType
  | tBool | tInt | tFloat | tStr
  deriving DecidableEq

/-- `TYPE2STR`; numpy's default integer on a 64-bit Linux system is `int64`. -/
def TYPE2STR : ElemType → String
  | .tBool => "bint"
  | .tInt => "numpy.int64_t"
  | .tFloat => "double"
  | .tStr => "str"

/-- `NDIM2STR` (the source dictionary has keys 0–3 only, matching the data
model's dimensionality range). -/
def NDIM2STR : Nat → String
  | 0 => ""
  | 1 => "[:]"
  | 2 => "[:,:]"
  | _ => "[:,:,:]"

structure ParDesc where
  name : String
  typ : ElemType
  ndim : Nat
  deriving DecidableEq

structure ParGroup where
  name : String
  classname : String
  pars : List ParDesc
  deriving DecidableEq

inductive SeqKind
  | input | flux | state | log | aide | link
  deriving DecidableEq

structure SeqGroup where
  name : String
  classname : String
  kind : SeqKind
  seqs : List SeqDesc
  deriving DecidableEq

/-- One module-level constant picked up by `PyxWriter.constants` (uppercase,
non-class, of a `TYPE2STR` type); `valueRepr` is its `%s`-rendering. -/
structure ConstDesc where
  name : String
  typ : ElemType
  ndim : Nat
  valueRepr : String
  deriving DecidableEq

structure PyxModel where
  fastcython : Bool
  parGroups : List ParGroup
  seqGroups : List SeqGroup
  consts : List ConstDesc
  numerical : Bool
  modelMembers : List String
  inletMethods : List String
  outletMethods : List String
  receiverMethods : List String
  senderMethods : List String
  runMethods : List String
  partOdeMethods : List String
  fullOdeMethods : List String
  solveSrc : Option FuncSrc
  extrapolateErrorSrc : Option FuncSrc
  userFuncs : List FuncSrc
  deriving DecidableEq

/-- `hasattr(self.model, s)`. -/
def hasattrModel (m : PyxModel) (s : String) : Bool := m.modelMembers.contains s

/-- `getattr(self.model.sequences, s, None)`. -/
def seqGroupNamed (m : PyxModel) (s : String) : Option SeqGroup :=
  m.seqGroups.find? (fun g => g.name == s)

/-- Modelled from the spec: the `sequencetools` class hierarchy is not part of
the sources under inspection; following §4.2 of the specification, the
persistence-eligible (`IOSubSequences`) categories are the input, flux and
state groups. -/
def isIOKind : SeqKind → Bool
  | .input => true
  | .flux => true
  | .state => true
  | _ => false

/-- Lexicographic comparison of character lists (Python string `<=`). -/
def leL : List Char → List Char → Bool
  | [], _ => true
  | _ :: _, [] => false
  | a :: as1, b :: bs1 => if a == b then leL as1 bs1 else decide (a < b)

/-- Insertion step of `sortByName`. -/
def insertByName (s : SeqDesc) : List SeqDesc → List SeqDesc
  | [] => [s]
  | t :: ts => if leL s.name.data t.name.data then s :: t :: ts else t :: insertByName s ts

/-- Python `sorted(subseqs)`: the sequences of a group ordered by name (names
are unique within a group). -/
def sortByName (l : List SeqDesc) : List SeqDesc := l.foldr insertByName []

/-- `PyxWriter.cythonoptions`. -/
def cythonoptions (fast : Bool) : List String :=
  let flag := if fast then "False" else "True"
  ["#!python",
   "#cython: boundscheck=" ++ flag,
   "#cython: wraparound=" ++ flag,
   "#cython: initializedcheck=" ++ flag]

/-- `PyxWriter.cimports`. -/
def cimportsLines : List String :=
  ["import numpy",
   "cimport numpy",
   "from libc.math cimport exp, fabs, log",
   "from libc.stdio cimport *",
   "from libc.stdlib cimport *",
   "import cython",
   "from cpython.mem cimport PyMem_Malloc",
   "from cpython.mem cimport PyMem_Realloc",
   "from cpython.mem cimport PyMem_Free",
   "from hydpy.cythons.autogen cimport pointerutils",
   "from hydpy.cythons.autogen cimport configutils",
   "from hydpy.cythons.autogen cimport smoothutils",
   "from hydpy.cythons.autogen cimport annutils"]

/-- `PyxWriter.constants`. -/
def constantsLines (m : PyxModel) : List String :=
  m.consts.map (fun c =>
    "cdef public " ++ TYPE2STR c.typ ++ NDIM2STR c.ndim ++ " " ++ c.name ++
      " = " ++ c.valueRepr)

/-- `PyxWriter.parameters`. -/
def parametersLines (m : PyxModel) : List String :=
  m.parGroups.flatMap (fun g =>
    ["@cython.final",
     "cdef class " ++ g.classname ++ "(object):"] ++
    g.pars.map (fun p =>
      addLine 1 ("cdef public " ++ TYPE2STR p.typ ++ NDIM2STR p.ndim ++ " " ++ p.name)))

/-- `PyxWriter.iosequence`. -/
def iosequenceLines (s : SeqDesc) : List String :=
  [addLine 1 ("cdef public bint _" ++ s.name ++ "_diskflag"),
   addLine 1 ("cdef public str _" ++ s.name ++ "_path"),
   addLine 1 ("cdef FILE *_" ++ s.name ++ "_file"),
   addLine 1 ("cdef public bint _" ++ s.name ++ "_ramflag"),
   addLine 1 ("cdef public double" ++ NDIM2STR (s.ndim + 1) ++ " _" ++ s.name ++ "_array")]

/-- The declaration lines of one sequence field inside its class
(`PyxWriter.sequences`, per-field part). -/
def seqDeclLines (isLink isFlux : Bool) (s : SeqDesc) : List String :=
  (if isLink then
     (if s.ndim = 0 then [addLine 1 ("cdef double *" ++ s.name)]
      else if s.ndim = 1 then
        [addLine 1 ("cdef double **" ++ s.name),
         addLine 1 ("cdef public int len_" ++ s.name)]
      else [])
   else [addLine 1 ("cdef public double" ++ NDIM2STR s.ndim ++ " " ++ s.name)]) ++
  [addLine 1 ("cdef public int _" ++ s.name ++ "_ndim"),
   addLine 1 ("cdef public int _" ++ s.name ++ "_length")] ++
  ((List.range s.ndim).map (fun i =>
    addLine 1 ("cdef public int _" ++ s.name ++ "_length_" ++ toString i))) ++
  (if s.numeric then
     [addLine 1 ("cdef public double" ++ NDIM2STR (s.ndim + 1) ++ " _" ++ s.name ++ "_points"),
      addLine 1 ("cdef public double" ++ NDIM2STR (s.ndim + 1) ++ " _" ++ s.name ++ "_results")] ++
     (if isFlux then
        [addLine 1 ("cdef public double" ++ NDIM2STR (s.ndim + 1) ++ " _" ++ s.name ++ "_integrals"),
         addLine 1 ("cdef public double" ++ NDIM2STR s.ndim ++ " _" ++ s.name ++ "_sum")]
      else [])
   else [])

/-- The comma-separated loop indices `jdx0,…` used by the nested load/save and
state-swap loops. -/
def idxNames (n : Nat) : String :=
  pyJoinWith "," ((List.range n).map (fun i => "jdx" ++ toString i))

/-- `PyxWriter.openfiles`. -/
def openfilesLines (g : SeqGroup) : List String :=
  addLine 1 "cpdef openfiles(self, int idx):" ::
  g.seqs.flatMap (fun s =>
    [addLine 2 ("if self._" ++ s.name ++ "_diskflag:"),
     addLine 3 ("self._" ++ s.name ++ "_file = fopen(str(self._" ++ s.name ++
       "_path).encode(), \"rb+\")")] ++
    (if s.ndim = 0 then
      [addLine 3 ("fseek(self._" ++ s.name ++ "_file, idx*8, SEEK_SET)")]
     else
      [addLine 3 ("fseek(self._" ++ s.name ++ "_file, idx*self._" ++ s.name ++
        "_length*8, SEEK_SET)")]))

/-- `PyxWriter.closefiles` (iterates the group sorted by name). -/
def closefilesLines (g : SeqGroup) : List String :=
  addLine 1 "cpdef inline closefiles(self):" ::
  (sortByName g.seqs).flatMap (fun s =>
    [addLine 2 ("if self._" ++ s.name ++ "_diskflag:"),
     addLine 3 ("fclose(self._" ++ s.name ++ "_file)")])

/-- `PyxWriter.loaddata`. -/
def loaddataLines (fast : Bool) (g : SeqGroup) : List String :=
  addLine 1 ("cpdef inline void loaddata(self, int idx) " ++ nogilStr fast ++ ":") ::
  addLine 2 "cdef int jdx0, jdx1, jdx2, jdx3, jdx4, jdx5" ::
  g.seqs.flatMap (fun s =>
    [addLine 2 ("if self._" ++ s.name ++ "_diskflag:")] ++
    (if s.ndim = 0 then
      [addLine 3 ("fread(&self." ++ s.name ++ ", 8, 1, self._" ++ s.name ++ "_file)")]
     else
      [addLine 3 ("fread(&self." ++ s.name ++ "[0], 8, self._" ++ s.name ++
        "_length, self._" ++ s.name ++ "_file)")]) ++
    [addLine 2 ("elif self._" ++ s.name ++ "_ramflag:")] ++
    (if s.ndim = 0 then
      [addLine 3 ("self." ++ s.name ++ " = self._" ++ s.name ++ "_array[idx]")]
     else
      ((List.range s.ndim).map (fun i =>
        addLine (3 + i) ("for jdx" ++ toString i ++ " in range(self._" ++ s.name ++
          "_length_" ++ toString i ++ "):"))) ++
      [addLine (3 + s.ndim) ("self." ++ s.name ++ "[" ++ idxNames s.ndim ++
        "] = self._" ++ s.name ++ "_array[idx," ++ idxNames s.ndim ++ "]")]))

/-- `PyxWriter.savedata`. -/
def savedataLines (fast : Bool) (g : SeqGroup) : List String :=
  addLine 1 ("cpdef inline void savedata(self, int idx) " ++ nogilStr fast ++ ":") ::
  addLine 2 "cdef int jdx0, jdx1, jdx2, jdx3, jdx4, jdx5" ::
  g.seqs.flatMap (fun s =>
    [addLine 2 ("if self._" ++ s.name ++ "_diskflag:")] ++
    (if s.ndim = 0 then
      [addLine 3 ("fwrite(&self." ++ s.name ++ ", 8, 1, self._" ++ s.name ++ "_file)")]
     else
      [addLine 3 ("fwrite(&self." ++ s.name ++ "[0], 8, self._" ++ s.name ++
        "_length, self._" ++ s.name ++ "_file)")]) ++
    [addLine 2 ("elif self._" ++ s.name ++ "_ramflag:")] ++
    (if s.ndim = 0 then
      [addLine 3 ("self._" ++ s.name ++ "_array[idx] = self." ++ s.name)]
     else
      ((List.range s.ndim).map (fun i =>
        addLine (3 + i) ("for jdx" ++ toString i ++ " in range(self._" ++ s.name ++
          "_length_" ++ toString i ++ "):"))) ++
      [addLine (3 + s.ndim) ("self._" ++ s.name ++ "_array[idx," ++ idxNames s.ndim ++
        "] = self." ++ s.name ++ "[" ++ idxNames s.ndim ++ "]")]))

/-- `PyxWriter.sequences`.  Note on the savedata condition: the source guards
it with `not isinstance(subseqs, sequencetools.InputSequence)` — the singular
`InputSequence` is the class of individual sequences, which no subgroup
instance belongs to, so the guard is always true and the save routine is
emitted for every persistence-eligible group, input groups included. -/
def sequencesLines (fast : Bool) (m : PyxModel) : List String :=
  m.seqGroups.flatMap (fun g =>
    ["@cython.final",
     "cdef class " ++ g.classname ++ "(object):"] ++
    g.seqs.flatMap (fun s =>
      seqDeclLines (g.kind == .link) (g.kind == .flux) s ++
      (if isIOKind g.kind then iosequenceLines s else [])) ++
    (if g.kind == .input then loaddataLines fast g else []) ++
    (if isIOKind g.kind then
       openfilesLines g ++ closefilesLines g ++ savedataLines fast g
     else []) ++
    (if g.kind == .link then setpointer g.seqs else []))

/-- `PyxWriter.numericalparameters`. -/
def numericalparametersLines (m : PyxModel) : List String :=
  if m.numerical then
    ["@cython.final",
     "cdef class NumConsts(object):",
     addLine 1 ("cdef public " ++ TYPE2STR .tInt ++ " nmb_methods"),
     addLine 1 ("cdef public " ++ TYPE2STR .tInt ++ " nmb_stages"),
     addLine 1 ("cdef public " ++ TYPE2STR .tFloat ++ " dt_increase"),
     addLine 1 ("cdef public " ++ TYPE2STR .tFloat ++ " dt_decrease"),
     addLine 1 "cdef public configutils.Config pub",
     addLine 1 "cdef public double[:, :, :] a_coefs",
     "cdef class NumVars(object):"] ++
    (["nmb_calls", "idx_method", "idx_stage"].map (fun n =>
      addLine 1 ("cdef public " ++ TYPE2STR .tInt ++ " " ++ n))) ++
    (["t0", "t1", "dt", "dt_est", "error", "last_error", "extrapolated_error"].map
      (fun n => addLine 1 ("cdef public " ++ TYPE2STR .tFloat ++ " " ++ n))) ++
    [addLine 1 ("cdef public " ++ TYPE2STR .tBool ++ " f0_ready")]
  else []

/-- `PyxWriter.modeldeclarations`. -/
def modeldeclarationsLines (m : PyxModel) : List String :=
  ["@cython.final",
   "cdef class Model(object):",
   addLine 1 "cdef public int idx_sim"] ++
  (m.parGroups.map (fun g => addLine 1 ("cdef public " ++ g.classname ++ " " ++ g.name))) ++
  (m.seqGroups.map (fun g => addLine 1 ("cdef public " ++ g.classname ++ " " ++ g.name))) ++
  (if (seqGroupNamed m "states").isSome then
     [addLine 1 "cdef public StateSequences old_states",
      addLine 1 "cdef public StateSequences new_states"]
   else []) ++
  (if hasattrModel m "numconsts" then [addLine 1 "cdef public NumConsts numconsts"] else []) ++
  (if hasattrModel m "numvars" then [addLine 1 "cdef public NumVars numvars"] else [])

/-- `method_header` (the `nogil` request is honoured only when the global
`fastcython` option is set). -/
def methodHeader (fast : Bool) (name : String) (nogil : Bool) : String :=
  "cpdef inline void " ++ name ++ "(self)" ++ (if nogil && fast then " nogil:" else ":")

/-- The structural conditions `PyxWriter.doit` consults, read off the model
descriptor. -/
def doitFlagsOf (m : PyxModel) : DoitFlags :=
  ⟨(seqGroupNamed m "inputs").isSome,
   !m.inletMethods.isEmpty,
   m.solveSrc.isSome,
   (seqGroupNamed m "states").isSome,
   !m.outletMethods.isEmpty,
   (seqGroupNamed m "fluxes").isSome⟩

/-- One method of `PyxWriter.iofunctions`. -/
def iofunctionOne (fast : Bool) (m : PyxModel) (func : String) (nogil : Bool)
    (applyfuncs : List String) : List String :=
  addLine 1 (methodHeader fast func nogil) ::
  (m.seqGroups.filter (fun g => applyfuncs.contains g.name)).map (fun g =>
    if func == "closefiles" then addLine 2 ("self." ++ g.name ++ "." ++ func ++ "()")
    else addLine 2 ("self." ++ g.name ++ "." ++ func ++ "(self.idx_sim)"))

/-- `PyxWriter.iofunctions`. -/
def iofunctionsLines (fast : Bool) (m : PyxModel) : List String :=
  iofunctionOne fast m "openfiles" false ["inputs", "fluxes", "states"] ++
  iofunctionOne fast m "closefiles" false ["inputs", "fluxes", "states"] ++
  (if (seqGroupNamed m "inputs").isSome then
     iofunctionOne fast m "loaddata" true ["inputs"]
   else []) ++
  (if (seqGroupNamed m "fluxes").isSome || (seqGroupNamed m "states").isSome then
     iofunctionOne fast m "savedata" true ["fluxes", "states"]
   else [])

/-- `PyxWriter.new2old` (iterates the states sorted by name). -/
def new2oldLines (fast : Bool) (m : PyxModel) : List String :=
  match seqGroupNamed m "states" with
  | none => []
  | some g =>
      addLine 1 (methodHeader fast "new2old" true) ::
      addLine 2 "cdef int jdx0, jdx1, jdx2, jdx3, jdx4, jdx5" ::
      (sortByName g.seqs).flatMap (fun s =>
        if s.ndim = 0 then
          [addLine 2 ("self.old_states." ++ s.name ++ " = self.new_states." ++ s.name)]
        else
          ((List.range s.ndim).map (fun i =>
            addLine (2 + i) ("for jdx" ++ toString i ++ " in range(self.states._" ++
              s.name ++ "_length_" ++ toString i ++ "):"))) ++
          [addLine (2 + s.ndim) ("self.old_states." ++ s.name ++ "[" ++
            idxNames s.ndim ++ "] = self.new_states." ++ s.name ++ "[" ++
            idxNames s.ndim ++ "]")])

/-- `PyxWriter._call_methods`. -/
def callMethodsLines (fast : Bool) (hasMethod : Bool) (name : String)
    (methods : List String) : List String :=
  if hasMethod then
    addLine 1 (methodHeader fast name true) ::
    (if methods.isEmpty then [addLine 2 "pass"]
     else methods.map (fun mn => addLine 2 ("self." ++ mn ++ "()")))
  else []

/-- `PyxWriter.modelstandardfunctions`. -/
def modelstandardfunctionsLines (fast : Bool) (m : PyxModel) : List String :=
  doitLines fast (doitFlagsOf m) ++
  iofunctionsLines fast m ++
  new2oldLines fast m ++
  callMethodsLines fast (hasattrModel m "run") "run" m.runMethods ++
  callMethodsLines fast (hasattrModel m "update_inlets") "update_inlets"
    m.inletMethods ++
  callMethodsLines fast (hasattrModel m "update_outlets") "update_outlets"
    m.outletMethods ++
  callMethodsLines fast (hasattrModel m "update_receivers") "update_receivers"
    m.receiverMethods ++
  callMethodsLines fast (hasattrModel m "update_senders") "update_senders"
    m.senderMethods

/-- `PyxWriter.calculate_single_terms` (inserts the call counter increment at
index 1, with the missing blank after `=` of the source). -/
def calculateSingleTermsLines (fast : Bool) (m : PyxModel) : List String :=
  let lines := callMethodsLines fast (hasattrModel m "calculate_single_terms")
    "calculate_single_terms" m.partOdeMethods
  match lines with
  | [] => []
  | l0 :: t => l0 :: "        self.numvars.nmb_calls =self.numvars.nmb_calls+1" :: t

/-- Sequential per-field emission with Python exception propagation. -/
def exceptFlatMap (f : SeqDesc → Except PyErr (List String)) :
    List SeqDesc → Except PyErr (List String)
  | [] => .ok []
  | s :: rest =>
      match f s with
      | .error e => .error e
      | .ok l =>
          match exceptFlatMap f rest with
          | .error e => .error e
          | .ok r => .ok (l ++ r)

/-- `decorate_method`: nothing is emitted (and the wrapped generator never
runs) unless the model has a method of that name; otherwise a nogil method
header is emitted and the generated lines are indented below it. -/
def decorateMethod (fast : Bool) (m : PyxModel) (fname : String)
    (body : Except PyErr (List String)) : Except PyErr (List String) :=
  if hasattrModel m fname then
    match body with
    | .ok b => .ok (addLine 1 (methodHeader fast fname true) :: b.map (addLine 2))
    | .error e => .error e
  else .ok []

/-- The state sequences (empty when the model declares none). -/
def statesSeqs (m : PyxModel) : List SeqDesc :=
  match seqGroupNamed m "states" with
  | some g => g.seqs
  | none => []

/-- The flux sequences (empty when the model declares none). -/
def fluxesSeqs (m : PyxModel) : List SeqDesc :=
  match seqGroupNamed m "fluxes" with
  | some g => g.seqs
  | none => []

/-- `self.model.sequences.fluxes.numerics`. -/
def fluxNumerics (m : PyxModel) : List SeqDesc :=
  (fluxesSeqs m).filter (fun s => s.numeric)

def getPointStatesLines (fast : Bool) (m : PyxModel) : Except PyErr (List String) :=
  decorateMethod fast m "get_point_states"
    (exceptFlatMap (assignSeqvaluesField "states" "points" (some "idx_stage") true)
      (statesSeqs m))

def setPointStatesLines (fast : Bool) (m : PyxModel) : Except PyErr (List String) :=
  decorateMethod fast m "set_point_states"
    (exceptFlatMap (assignSeqvaluesField "states" "points" (some "idx_stage") false)
      (statesSeqs m))

def setResultStatesLines (fast : Bool) (m : PyxModel) : Except PyErr (List String) :=
  decorateMethod fast m "set_result_states"
    (exceptFlatMap (assignSeqvaluesField "states" "results" (some "idx_method") false)
      (statesSeqs m))

def getSumFluxesLines (fast : Bool) (m : PyxModel) : Except PyErr (List String) :=
  decorateMethod fast m "get_sum_fluxes"
    (exceptFlatMap (assignSeqvaluesField "fluxes" "sum" none true) (fluxesSeqs m))

def setPointFluxesLines (fast : Bool) (m : PyxModel) : Except PyErr (List String) :=
  decorateMethod fast m "set_point_fluxes"
    (exceptFlatMap (assignSeqvaluesField "fluxes" "points" (some "idx_stage") false)
      (fluxesSeqs m))

def setResultFluxesLines (fast : Bool) (m : PyxModel) : Except PyErr (List String) :=
  decorateMethod fast m "set_result_fluxes"
    (exceptFlatMap (assignSeqvaluesField "fluxes" "results" (some "idx_method") false)
      (fluxesSeqs m))

def integrateFluxesLines (fast : Bool) (m : PyxModel) : Except PyErr (List String) :=
  decorateMethod fast m "integrate_fluxes"
    (exceptFlatMap integrateFluxesField (fluxNumerics m))

def resetSumFluxesLines (fast : Bool) (m : PyxModel) : Except PyErr (List String) :=
  decorateMethod fast m "reset_sum_fluxes"
    (exceptFlatMap resetSumFluxesField (fluxNumerics m))

def addupFluxesLines (fast : Bool) (m : PyxModel) : Except PyErr (List String) :=
  decorateMethod fast m "addup_fluxes"
    (exceptFlatMap addupFluxesField (fluxNumerics m))

def calculateErrorLines (fast : Bool) (m : PyxModel) : Except PyErr (List String) :=
  decorateMethod fast m "calculate_error"
    (match exceptFlatMap calculateErrorField (fluxNumerics m) with
     | .ok l => .ok ("self.numvars.error = 0." :: l)
     | .error e => .error e)

/-- `PyxWriter.solve` (translated through `FuncConverter`). -/
def solveLines (fast : Bool) (m : PyxModel) : List String :=
  match m.solveSrc with
  | some f => pyxlines fast f
  | none => []

/-- `PyxWriter.extrapolate_error` (translated through `FuncConverter`). -/
def extrapolateErrorLines (fast : Bool) (m : PyxModel) : List String :=
  match m.extrapolateErrorSrc with
  | some f => pyxlines fast f
  | none => []

/-- `PyxWriter.modelnumericfunctions`, in emission order. -/
def modelnumericfunctionsLines (fast : Bool) (m : PyxModel) :
    Except PyErr (List String) := do
  let gps ← getPointStatesLines fast m
  let sps ← setPointStatesLines fast m
  let srs ← setResultStatesLines fast m
  let gsf ← getSumFluxesLines fast m
  let spf ← setPointFluxesLines fast m
  let srf ← setResultFluxesLines fast m
  let intf ← integrateFluxesLines fast m
  let rsf ← resetSumFluxesLines fast m
  let adf ← addupFluxesLines fast m
  let cer ← calculateErrorLines fast m
  return solveLines fast m ++
    calculateSingleTermsLines fast m ++
    callMethodsLines fast (hasattrModel m "calculate_full_terms")
      "calculate_full_terms" m.fullOdeMethods ++
    gps ++ sps ++ srs ++ gsf ++ spf ++ srf ++ intf ++ rsf ++ adf ++ cer ++
    extrapolateErrorLines fast m

/-- `PyxWriter.modeluserfunctions` (the routine order of
`listofmodeluserfunctions` is the descriptor's list order). -/
def modeluserfunctionsLines (fast : Bool) (m : PyxModel) : List String :=
  m.userFuncs.flatMap (pyxlines fast)

/-- `PyxWriter.write`: the ten parts written to the pyx file, each through
`repr` of its `Lines` object, concatenated in source order. -/
def pyxContent (m : PyxModel) : Except PyErr String :=
  match modelnumericfunctionsLines m.fastcython m with
  | .error e => .error e
  | .ok numf =>
      .ok (concatAll ([cythonoptions m.fastcython,
        cimportsLines,
        constantsLines m,
        parametersLines m,
        sequencesLines m.fastcython m,
        numericalparametersLines m,
        modeldeclarationsLines m,
        modelstandardfunctionsLines m.fastcython m,
        numf,
        modeluserfunctionsLines m.fastcython m].map linesRepr))

/-! ## The idempotence cycle (`Cythonizer.complete`, claim C2) -/

/-- The filesystem state the staleness check and the writer touch: the
generated pyx file (modification time and content, `none` when absent) and
the source-file modification times. -/
structure BuildFS where
  pyx : Option (Int × String)
  sources : List Int
  deriving DecidableEq

/-- `Cythonizer.outdated` applied to this filesystem state. -/
def outdatedFS (fs : BuildFS) : Bool :=
  outdated (fs.pyx.map Prod.fst) fs.sources

/-- `Cythonizer.complete`: when `outdated` holds, `doit` rewrites the pyx file
(its modification time becomes the current time `now`) and then compiles and
relocates the artifact; otherwise nothing runs.  The Boolean records whether
the regenerate-and-compile cycle was invoked. -/
def completeRun (m : PyxModel) (now : Int) (fs : BuildFS) :
    Except PyErr (BuildFS × Bool) :=
  if outdatedFS fs then
    match pyxContent m with
    | .ok c => .ok (⟨some (now, c), fs.sources⟩, true)
    | .error e => .error e
  else .ok (fs, false)

/-- Claim C2: with an unchanged model descriptor and unchanged source-file
timestamps (each at most the time of the first run), the first `complete`
invocation deterministically produces the generated source unit, and the
second invocation finds it Fresh: nothing is regenerated or compiled
(`r = false`) and the generated file — hence its bytes — is left exactly as
the first run wrote it. -/
theorem C2_idempotent (m : PyxModel) (fs : BuildFS) (now1 now2 : Int) (c : String)
    (hgen : pyxContent m = Except.ok c)
    (hsrc : ∀ s ∈ fs.sources, s ≤ now1) :
    ∃ fs1 r1, completeRun m now1 fs = .ok (fs1, r1) ∧
      fs1.sources = fs.sources ∧
      outdatedFS fs1 = false ∧
      completeRun m now2 fs1 = .ok (fs1, false) ∧
      (r1 = true → fs1.pyx = some (now1, c)) := by
  by_cases h : outdatedFS fs = true
  · have hfresh : outdatedFS ⟨some (now1, c), fs.sources⟩ = false := by
      simp only [outdatedFS, outdated, Option.map_some']
      rw [Bool.eq_false_iff]
      intro hcon
      rw [List.any_eq_true] at hcon
      obtain ⟨p, hp, hlt⟩ := hcon
      simp only [decide_eq_true_eq] at hlt
      exact absurd hlt (not_lt.2 (hsrc p hp))
    refine ⟨⟨some (now1, c), fs.sources⟩, true, ?_, rfl, hfresh, ?_, fun _ => rfl⟩
    · simp [completeRun, h, hgen]
    · simp [completeRun, hfresh]
  · have h0 : outdatedFS fs = false := by simpa using h
    refine ⟨fs, false, ?_, rfl, h0, ?_, ?_⟩
    · simp [completeRun, h0]
    · simp [completeRun, h0]
    · intro hct
      exact absurd hct Bool.false_ne_true

/-- A small concrete descriptor for the C2 witness: one control parameter,
one flux sequence and a `run` method. -/
def witnessModel : PyxModel where
  fastcython := true
  parGroups := [⟨"control", "ControlParameters", [⟨"k", .tFloat, 0⟩]⟩]
  seqGroups := [⟨"fluxes", "FluxSequences", .flux, [⟨"q", 0, false⟩]⟩]
  consts := []
  numerical := false
  modelMembers := ["run"]
  inletMethods := []
  outletMethods := []
  receiverMethods := []
  senderMethods := []
  runMethods := ["calc_q"]
  partOdeMethods := []
  fullOdeMethods := []
  solveSrc := none
  extrapolateErrorSrc := none
  userFuncs := []

/-- The generated source unit of `witnessModel`. -/
def witnessPyx : String :=
  match pyxContent witnessModel with
  | .ok s => s
  | .error _ => ""

/-- Witness for C2: the concrete model is generated at time 7 with sources
dated 3 and 5; the second run at time 9 reports Fresh and changes nothing. -/
theorem C2_idempotent_witness :
    ∃ fs1 r1, completeRun witnessModel 7 ⟨none, [3, 5]⟩ = .ok (fs1, r1) ∧
      fs1.sources = [3, 5] ∧
      outdatedFS fs1 = false ∧
      completeRun witnessModel 9 fs1 = .ok (fs1, false) ∧
      (r1 = true → fs1.pyx = some (7, witnessPyx)) :=
  C2_idempotent witnessModel ⟨none, [3, 5]⟩ 7 9 witnessPyx rfl (by decide)
